import Mathlib

/-
  Shallow embedding of the wiredash-manager frontend's router-proxy
  request/response handling, translated from:
    src/hooks/useWireguardPeers.tsx   (fetchPeers, createPeer, generators)
    src/pages/Interfaces.tsx          (makeProxyRequest, fetchInterfaces,
                                       handleToggleInterface, handleDeleteInterface)
    src/components/QRCodeModal.tsx    (generateWireGuardConfig)

  Each React handler is modelled as a pure function from an environment
  (the persisted router configuration and the network outcome of the one
  proxy call the handler makes) and the pre-state of the component to a
  result record carrying the post-state together with the observable
  effects the handler performs: log records added through addLog, toasts,
  the number of network calls issued, the ordered event trace
  (proxy call / awaited list re-fetch / promise resolution), and the body
  sent with the request when one is sent.
-/

namespace Wiredash

/-- JSON values as delivered by the backend proxy (the shapes the frontend
inspects: null, booleans, numbers, strings, arrays, objects). -/
inductive Json where
  | null : Json
  | bool : Bool → Json
  | num : Int → Json
  | str : String → Json
  | arr : List Json → Json
  | obj : List (String × Json) → Json

/-- JavaScript truthiness of a JSON value (`if (x)`): null, false, 0 and
the empty string are falsy; every array and object is truthy. -/
def Json.truthy : Json → Bool
  | .null => false
  | .bool b => b
  | .num n => n != 0
  | .str s => s != ""
  | .arr _ => true
  | .obj _ => true

/-- Truthiness of a possibly missing field (`undefined` is falsy). -/
def truthyOpt : Option Json → Bool
  | none => false
  | some j => j.truthy

/-- JavaScript `x || dflt` for a possibly missing string field: the
default is used when the field is absent or the empty string. -/
def jsOrStr : Option String → String → String
  | none, dflt => dflt
  | some s, dflt => if s = "" then dflt else s

/-- The parsed JSON body returned by the proxy, with the fields the
frontend reads: `success` (tested for truthiness), `status` (compared
with `=== 200` by the interfaces path), `data`, `error`. -/
structure ResponseData where
  success : Json
  status : Option Json
  data : Option Json
  error : Option String

/-- `responseData.status === 200`. -/
def isStatus200 : Option Json → Bool
  | some (.num 200) => true
  | _ => false

/-- `Array.isArray(responseData.data) ? responseData.data : []`. -/
def arrayOrEmpty : Option Json → List Json
  | some (Json.arr xs) => xs
  | _ => []

/-- The `data` field is missing, or present but not an array. -/
def dataNotArray : Option Json → Bool
  | some (Json.arr _) => false
  | _ => true

/-- Outcome of one `fetch` of the proxy endpoint: either a response
arrived (HTTP status, response headers, parsed JSON body), or the call
threw (network error, or the 15 s `AbortSignal.timeout`). -/
inductive FetchOutcome where
  | ok : Nat → List (String × String) → ResponseData → FetchOutcome
  | thrown : String → FetchOutcome

/-- One record passed to `addLog`; `responseBody` carries the response
data whose `JSON.stringify` the code logs. -/
structure LogRecord where
  method : String
  url : String
  status : Option Nat
  requestHeaders : List (String × String)
  responseHeaders : Option (List (String × String))
  responseBody : Option ResponseData
  error : Option String
  duration : Nat

/-- One toast notification; `destructive` is true when the code passes
`variant: "destructive"`. -/
structure Toast where
  title : String
  description : String
  destructive : Bool

/-- The persisted router connection profile (localStorage `routerConfig`
for the peers hook; the SQLite-backed config for the interfaces page). -/
structure RouterConfig where
  routerType : String
  endpoint : String
  port : String
  user : String
  password : String
  useHttps : Bool

/-- Ordered externally visible events of one handler execution. -/
inductive Event where
  | proxyCall : String → String → Event
  | refetch : Event
  | resolve : Event
deriving DecidableEq, BEq

def ctHeaders : List (String × String) := [("Content-Type", "application/json")]

def peersPath : String := "/rest/interface/wireguard/peers"

def interfacesPath : String := "/rest/interface/wireguard"

/-- Environment of one peers-hook handler execution: the stored config
(if any), what the network did, and the measured elapsed time. -/
structure PeersEnv where
  savedConfig : Option RouterConfig
  outcome : FetchOutcome
  duration : Nat

/-- The peers hook's React state. -/
structure PeersState where
  peers : List Json
  isLoading : Bool
  isCreating : Bool

/-- Result of one peers-hook handler execution. `returned` is the value
the promise resolves with (`createPeer` returns a Bool; `fetchPeers`
returns nothing). -/
structure PeersRunResult where
  state : PeersState
  logs : List LogRecord
  toasts : List Toast
  networkCalls : Nat
  events : List Event
  returned : Option Bool

def notConfiguredToast : Toast :=
  { title := "Configuração não encontrada"
    description := "Configure a conexão com o roteador primeiro."
    destructive := true }

/-- `fetchPeers` from useWireguardPeers.tsx. No saved config: toast and
return. Non-mikrotik router type: silent return. Otherwise one proxy
call; a received response is logged (with status, headers and body) and
then `success && data` decides between `setPeers(Array.isArray(data) ?
data : [])` and an error toast; a thrown error is logged (with error
text) and produces a connection toast. `setIsLoading(false)` runs in
`finally`. The awaited list re-fetch performed by other actions is
abstracted as an `Event.refetch`; here none occurs. -/
def fetchPeersRun (env : PeersEnv) (st : PeersState) : PeersRunResult :=
  match env.savedConfig with
  | none =>
      { state := st, logs := [], toasts := [notConfiguredToast]
        networkCalls := 0, events := [Event.resolve], returned := none }
  | some config =>
      if config.routerType ≠ "mikrotik" then
        { state := st, logs := [], toasts := []
          networkCalls := 0, events := [Event.resolve], returned := none }
      else
        let st1 := { st with isLoading := true }
        match env.outcome with
        | .ok httpStatus respHeaders body =>
            let log : LogRecord :=
              { method := "GET", url := peersPath, status := some httpStatus
                requestHeaders := ctHeaders
                responseHeaders := some respHeaders
                responseBody := some body
                error := none, duration := env.duration }
            if body.success.truthy && truthyOpt body.data then
              { state := { st1 with peers := arrayOrEmpty body.data, isLoading := false }
                logs := [log], toasts := [], networkCalls := 1
                events := [Event.proxyCall "GET" peersPath, Event.resolve]
                returned := none }
            else
              { state := { st1 with isLoading := false }
                logs := [log]
                toasts := [{ title := "Erro ao carregar peers"
                             description := jsOrStr body.error "Falha na comunicação com o roteador"
                             destructive := true }]
                networkCalls := 1
                events := [Event.proxyCall "GET" peersPath, Event.resolve]
                returned := none }
        | .thrown msg =>
            { state := { st1 with isLoading := false }
              logs := [{ method := "GET", url := peersPath, status := none
                         requestHeaders := ctHeaders
                         responseHeaders := none, responseBody := none
                         error := some msg, duration := env.duration }]
              toasts := [{ title := "Erro de conexão"
                           description := "Não foi possível buscar os peers do roteador."
                           destructive := true }]
              networkCalls := 1
              events := [Event.proxyCall "GET" peersPath, Event.resolve]
              returned := none }

/-- `createPeer` from useWireguardPeers.tsx. No saved config or
non-mikrotik router: toast and resolve `false` without a network call.
Otherwise one PUT proxy call (its generated `public-key` /
`allowed-address` body fields are produced by the generators modelled
below); a received response is logged and then `responseData.success`
alone decides: success toasts, awaits `fetchPeers()` (the
`Event.refetch`) and resolves `true`; otherwise an error toast and
`false`. A thrown error is logged with its message and resolves `false`.
`setIsCreating(false)` runs in `finally`. -/
def createPeerRun (env : PeersEnv) (st : PeersState) : PeersRunResult :=
  match env.savedConfig with
  | none =>
      { state := st, logs := [], toasts := [notConfiguredToast]
        networkCalls := 0, events := [Event.resolve], returned := some false }
  | some config =>
      if config.routerType ≠ "mikrotik" then
        { state := st, logs := []
          toasts := [{ title := "Roteador não suportado"
                       description := "Esta funcionalidade é específica para roteadores Mikrotik."
                       destructive := true }]
          networkCalls := 0, events := [Event.resolve], returned := some false }
      else
        let st1 := { st with isCreating := true }
        match env.outcome with
        | .ok httpStatus respHeaders body =>
            let log : LogRecord :=
              { method := "PUT", url := peersPath, status := some httpStatus
                requestHeaders := ctHeaders
                responseHeaders := some respHeaders
                responseBody := some body
                error := none, duration := env.duration }
            if body.success.truthy then
              { state := { st1 with isCreating := false }
                logs := [log]
                toasts := [{ title := "✅ Peer criado com sucesso"
                             description := "O peer WireGuard foi configurado no roteador."
                             destructive := false }]
                networkCalls := 1
                events := [Event.proxyCall "PUT" peersPath, Event.refetch, Event.resolve]
                returned := some true }
            else
              { state := { st1 with isCreating := false }
                logs := [log]
                toasts := [{ title := "Erro ao criar peer"
                             description := jsOrStr body.error "Falha na comunicação com o roteador"
                             destructive := true }]
                networkCalls := 1
                events := [Event.proxyCall "PUT" peersPath, Event.resolve]
                returned := some false }
        | .thrown msg =>
            { state := { st1 with isCreating := false }
              logs := [{ method := "PUT", url := peersPath, status := none
                         requestHeaders := ctHeaders
                         responseHeaders := none, responseBody := none
                         error := some msg, duration := env.duration }]
              toasts := [{ title := "Erro de conexão"
                           description := "Não foi possível criar o peer no roteador."
                           destructive := true }]
              networkCalls := 1
              events := [Event.proxyCall "PUT" peersPath, Event.resolve]
              returned := some false }

/-- The Interfaces page's React state (the fields touched by the
handlers modelled here). -/
structure InterfacesState where
  interfaces : List Json
  isLoading : Bool
  togglingId : Option String
  deletingId : Option String
  connectionValid : Option Bool

/-- Result of one Interfaces-page handler execution. `sentBody` is the
JSON body carried inside the proxy envelope when the handler sends one
(the PATCH body of the toggle action). -/
structure InterfacesRunResult where
  state : InterfacesState
  logs : List LogRecord
  toasts : List Toast
  networkCalls : Nat
  events : List Event
  sentBody : Option Json

def backendConnToast : Toast :=
  { title := "Erro de conexão"
    description := "Não foi possível conectar ao backend."
    destructive := true }

/-- `fetchInterfaces` from Interfaces.tsx. `makeProxyRequest` throws
when `routerConfig` is null; that throw, like any transport error, is
caught and produces the backend-connection toast and
`setConnectionValid(false)`. A received response is parsed and
`success && status === 200` (the body's own `status` field) decides:
`setInterfaces(Array.isArray(data) ? data : [])` (with an informational
toast when the array is empty) versus an error toast plus
`setConnectionValid(false)`. `setIsLoading(false)` runs in `finally` on
every path. No path calls `addLog`. -/
def fetchInterfacesRun (routerConfig : Option RouterConfig) (outcome : FetchOutcome)
    (st : InterfacesState) : InterfacesRunResult :=
  match routerConfig with
  | none =>
      { state := { st with isLoading := false, connectionValid := some false }
        logs := []
        toasts := [{ title := "Erro de conexão"
                     description := "Não foi possível conectar ao backend. Verifique se o serviço está executando."
                     destructive := true }]
        networkCalls := 0, events := [], sentBody := none }
  | some _ =>
      match outcome with
      | .ok _ _ body =>
          if body.success.truthy && isStatus200 body.status then
            { state := { st with interfaces := arrayOrEmpty body.data, isLoading := false }
              logs := []
              toasts :=
                if (arrayOrEmpty body.data).length = 0 then
                  [{ title := "Nenhuma interface encontrada"
                     description := "Não foram encontradas interfaces WireGuard configuradas."
                     destructive := false }]
                else []
              networkCalls := 1
              events := [Event.proxyCall "GET" interfacesPath], sentBody := none }
          else
            { state := { st with isLoading := false, connectionValid := some false }
              logs := []
              toasts := [{ title := "Erro ao buscar interfaces"
                           description := jsOrStr body.error "Falha ao conectar com o roteador."
                           destructive := true }]
              networkCalls := 1
              events := [Event.proxyCall "GET" interfacesPath], sentBody := none }
      | .thrown _ =>
          { state := { st with isLoading := false, connectionValid := some false }
            logs := []
            toasts := [{ title := "Erro de conexão"
                         description := "Não foi possível conectar ao backend. Verifique se o serviço está executando."
                         destructive := true }]
            networkCalls := 1
            events := [Event.proxyCall "GET" interfacesPath], sentBody := none }

/-- `handleToggleInterface` from Interfaces.tsx. `willDisable` is
`currentDisabled === 'false'`. Without confirmation the handler returns
untouched. Confirmed, it sets `togglingId`, PATCHes
`{disabled: willDisable}` through the proxy (a null `routerConfig`
throws before the call), on `responseData.success` toasts and awaits
`fetchInterfaces()` (the `Event.refetch`, whose own state effects are
not folded in here), otherwise toasts the error; any throw toasts the
backend-connection error. `setTogglingId(null)` runs in `finally`. No
path calls `addLog`. -/
def handleToggleInterfaceRun (confirmed : Bool) (interfaceId interfaceName currentDisabled : String)
    (routerConfig : Option RouterConfig) (outcome : FetchOutcome)
    (st : InterfacesState) : InterfacesRunResult :=
  let willDisable : Bool := currentDisabled == "false"
  let actionWord : String := if willDisable then "desabilitar" else "habilitar"
  let doneWord : String := if willDisable then "desabilitada" else "habilitada"
  if ¬ confirmed then
    { state := st, logs := [], toasts := [], networkCalls := 0
      events := [Event.resolve], sentBody := none }
  else
    let st1 := { st with togglingId := some interfaceId }
    match routerConfig with
    | none =>
        { state := { st1 with togglingId := none }
          logs := [], toasts := [backendConnToast]
          networkCalls := 0, events := [Event.resolve], sentBody := none }
    | some _ =>
        let patchBody : Json := Json.obj [("disabled", Json.bool willDisable)]
        let path : String := interfacesPath ++ "/" ++ interfaceId
        match outcome with
        | .ok _ _ body =>
            if body.success.truthy then
              { state := { st1 with togglingId := none }
                logs := []
                toasts := [{ title := "Interface " ++ doneWord
                             description := "Interface " ++ interfaceName ++ " foi " ++ doneWord ++ " com sucesso."
                             destructive := false }]
                networkCalls := 1
                events := [Event.proxyCall "PATCH" path, Event.refetch, Event.resolve]
                sentBody := some patchBody }
            else
              { state := { st1 with togglingId := none }
                logs := []
                toasts := [{ title := "Erro ao " ++ actionWord ++ " interface"
                             description := jsOrStr body.error ("Falha ao " ++ actionWord ++ " a interface.")
                             destructive := true }]
                networkCalls := 1
                events := [Event.proxyCall "PATCH" path, Event.resolve]
                sentBody := some patchBody }
        | .thrown _ =>
            { state := { st1 with togglingId := none }
              logs := [], toasts := [backendConnToast]
              networkCalls := 1
              events := [Event.proxyCall "PATCH" path, Event.resolve]
              sentBody := some patchBody }

/-- `handleDeleteInterface` from Interfaces.tsx. Same shape as the
toggle handler with a DELETE call, no request body, and the
`deletingId` flag. No path calls `addLog`. -/
def handleDeleteInterfaceRun (confirmed : Bool) (interfaceId interfaceName : String)
    (routerConfig : Option RouterConfig) (outcome : FetchOutcome)
    (st : InterfacesState) : InterfacesRunResult :=
  if ¬ confirmed then
    { state := st, logs := [], toasts := [], networkCalls := 0
      events := [Event.resolve], sentBody := none }
  else
    let st1 := { st with deletingId := some interfaceId }
    match routerConfig with
    | none =>
        { state := { st1 with deletingId := none }
          logs := [], toasts := [backendConnToast]
          networkCalls := 0, events := [Event.resolve], sentBody := none }
    | some _ =>
        let path : String := interfacesPath ++ "/" ++ interfaceId
        match outcome with
        | .ok _ _ body =>
            if body.success.truthy then
              { state := { st1 with deletingId := none }
                logs := []
                toasts := [{ title := "Interface deletada"
                             description := "Interface " ++ interfaceName ++ " foi deletada com sucesso."
                             destructive := false }]
                networkCalls := 1
                events := [Event.proxyCall "DELETE" path, Event.refetch, Event.resolve]
                sentBody := none }
            else
              { state := { st1 with deletingId := none }
                logs := []
                toasts := [{ title := "Erro ao deletar interface"
                             description := jsOrStr body.error "Falha ao deletar a interface."
                             destructive := true }]
                networkCalls := 1
                events := [Event.proxyCall "DELETE" path, Event.resolve]
                sentBody := none }
        | .thrown _ =>
            { state := { st1 with deletingId := none }
              logs := [], toasts := [backendConnToast]
              networkCalls := 1
              events := [Event.proxyCall "DELETE" path, Event.resolve]
              sentBody := none }

/-- The key alphabet of `generatePublicKey`. -/
def chars : String := "ABCDEFGHIJKLMNOPQRSTUVWXYZabcdefghijklmnopqrstuvwxyz0123456789+/"

/-- JavaScript `s.charAt(i)` at the character-list level: the one-element
list holding character `i`, or the empty list out of range. -/
def charAtData (l : List Char) (i : Nat) : List Char :=
  match l.get? i with
  | some c => [c]
  | none => []

/-- Characters of `generatePublicKey`: 44 rounds of
`result += chars.charAt(Math.floor(Math.random() * chars.length))`,
with draw `i` of `Math.floor(Math.random() * 64)` modelled by
`rand i`. -/
def generatePublicKeyData (rand : Nat → Nat) : List Char :=
  (List.range 44).foldl (fun acc i => acc ++ charAtData chars.data (rand i)) []

/-- `generatePublicKey` from useWireguardPeers.tsx. -/
def generatePublicKey (rand : Nat → Nat) : String :=
  String.mk (generatePublicKeyData rand)

/-- `generateAllowedAddress` from useWireguardPeers.tsx, with the draw
`Math.floor(Math.random() * 254)` modelled by `rand`. -/
def generateAllowedAddress (rand : Nat) : String :=
  let baseNetwork := "10.0.0"
  let hostId := rand + 1
  baseNetwork ++ "." ++ toString hostId ++ "/32"

/-- The fields of the peer object that `generateWireGuardConfig` reads,
each possibly absent. -/
structure PeerData where
  publicKey : Option String
  allowedAddress : Option String
  endpointAddress : Option String
  endpointPort : Option String

/-- `generateWireGuardConfig` from QRCodeModal.tsx: the template-literal
config text with the source's `||` defaults. -/
def generateWireGuardConfig (peerData : PeerData) : String :=
  let clientPrivateKey := "ABCD1234567890ABCD1234567890ABCD1234567890="
  let serverPublicKey := jsOrStr peerData.publicKey "EFGH1234567890EFGH1234567890EFGH1234567890="
  "[Interface]\nPrivateKey = " ++ clientPrivateKey
    ++ "\nAddress = " ++ jsOrStr peerData.allowedAddress "10.0.0.10/32"
    ++ "\nDNS = 1.1.1.1\n\n[Peer]\nPublicKey = " ++ serverPublicKey
    ++ "\nEndpoint = " ++ jsOrStr peerData.endpointAddress "vpn.stacasa.local"
    ++ ":" ++ jsOrStr peerData.endpointPort "51820"
    ++ "\nAllowedIPs = 0.0.0.0/0\nPersistentKeepalive = 25"

/-- Drops everything up to and including the first occurrence of
`needle` in `haystack`; `none` when `needle` does not occur. -/
def findDrop (needle : List Char) : List Char → Option (List Char)
  | [] => if needle = [] then some [] else none
  | c :: rest =>
      if needle.isPrefixOf (c :: rest) then some ((c :: rest).drop needle.length)
      else findDrop needle rest

/-- Each needle occurs in the haystack, in the given order, at disjoint
positions. -/
def containsAllInOrder : List Char → List (List Char) → Bool
  | _, [] => true
  | hay, n :: ns =>
      match findDrop n hay with
      | some rest => containsAllInOrder rest ns
      | none => false

/-- String-level wrapper of `containsAllInOrder`. -/
def containsInOrder (text : String) (needles : List String) : Bool :=
  containsAllInOrder text.data (needles.map String.data)

/-! Concrete fixtures used by the claim theorems. -/

def mikrotikConfig : RouterConfig :=
  { routerType := "mikrotik", endpoint := "192.168.88.1", port := "80"
    user := "admin", password := "pw", useHttps := false }

/-- JSON body of the C1 scenario: HTTP 500 with body
success true, data the empty array, no status field, no error field. -/
def body500 : ResponseData :=
  { success := Json.bool true, status := none, data := some (Json.arr []), error := none }

def outcome500 : FetchOutcome := FetchOutcome.ok 500 [] body500

def env500 : PeersEnv :=
  { savedConfig := some mikrotikConfig, outcome := outcome500, duration := 3 }

def peersSt0 : PeersState := { peers := [], isLoading := false, isCreating := false }

def peersStOld : PeersState :=
  { peers := [Json.str "oldpeer"], isLoading := false, isCreating := false }

def interfacesSt0 : InterfacesState :=
  { interfaces := [], isLoading := true, togglingId := none, deletingId := none
    connectionValid := some true }

def interfacesStOld : InterfacesState :=
  { interfaces := [Json.str "oldiface"], isLoading := true, togglingId := none
    deletingId := none, connectionValid := some true }

/-- A fully successful proxy body: success true, status field 200, empty array data. -/
def okBody : ResponseData :=
  { success := Json.bool true, status := some (Json.num 200)
    data := some (Json.arr []), error := none }

/-- A success body whose `data` field is missing entirely. -/
def bodyNoData : ResponseData :=
  { success := Json.bool true, status := some (Json.num 200), data := none, error := none }

def envNoData : PeersEnv :=
  { savedConfig := some mikrotikConfig, outcome := FetchOutcome.ok 200 [] bodyNoData
    duration := 0 }

def pkeyPeer : PeerData :=
  { publicKey := some "PKEY", allowedAddress := some "10.0.0.5/32"
    endpointAddress := some "vpn.example.com", endpointPort := none }

def envNone : PeersEnv :=
  { savedConfig := none, outcome := FetchOutcome.thrown "net down", duration := 0 }

def envOk : PeersEnv :=
  { savedConfig := some mikrotikConfig, outcome := FetchOutcome.ok 200 [] okBody
    duration := 1 }

/-- The one log record that the peers hook emits for a call with the
given outcome: on a received response it carries the HTTP status and the
response headers and body; on a throw it carries the error text instead. -/
def expectedLog (m u : String) (o : FetchOutcome) (d : Nat) : LogRecord :=
  match o with
  | .ok hs rh b =>
      { method := m, url := u, status := some hs, requestHeaders := ctHeaders
        responseHeaders := some rh, responseBody := some b, error := none, duration := d }
  | .thrown msg =>
      { method := m, url := u, status := none, requestHeaders := ctHeaders
        responseHeaders := none, responseBody := none, error := some msg, duration := d }

/-- The backend body reports success: `responseData.success` is truthy. -/
def respSuccess : FetchOutcome → Bool
  | .ok _ _ b => b.success.truthy
  | .thrown _ => false

lemma arrayOrEmpty_of_notArray (o : Option Json) (h : dataNotArray o = true) :
    arrayOrEmpty o = [] := by
  cases o with
  | none => rfl
  | some j =>
      cases j with
      | arr xs => simp [dataNotArray] at h
      | null => rfl
      | bool b => rfl
      | num n => rfl
      | str s => rfl
      | obj f => rfl

/-- C1: a proxy response with HTTP status 500 and JSON body
success true / data the empty array (no body status field) is treated as
a success by fetchPeers — it updates the peers list (here from a
nonempty prior snapshot to the empty array) and shows no error toast —
while fetchInterfaces treats the same body as a failure, because its
guard additionally requires the body's status field to equal 200: it
leaves the interfaces list untouched, shows the error toast, and marks
the connection invalid. -/
theorem claim_C1_status_asymmetry :
    (fetchPeersRun env500 peersStOld).state.peers = [] ∧
    (fetchPeersRun env500 peersStOld).toasts = [] ∧
    (fetchPeersRun env500 peersStOld).networkCalls = 1 ∧
    (fetchInterfacesRun (some mikrotikConfig) outcome500 interfacesStOld).state.interfaces
      = interfacesStOld.interfaces ∧
    (fetchInterfacesRun (some mikrotikConfig) outcome500 interfacesStOld).toasts
      = [{ title := "Erro ao buscar interfaces"
           description := "Falha ao conectar com o roteador."
           destructive := true }] ∧
    (fetchInterfacesRun (some mikrotikConfig) outcome500 interfacesStOld).state.connectionValid
      = some false :=
  ⟨rfl, rfl, rfl, rfl, rfl, rfl⟩

/-- C2 counterexample: a response whose `data` field is missing
(success true, body status 200) leaves fetchPeers's prior, nonempty
peers list untouched — the resulting list is not the empty list, so the
claim that every missing-or-non-array `data` yields the empty list is
false on the code. -/
theorem claim_C2_counterexample :
    dataNotArray bodyNoData.data = true ∧
    (fetchPeersRun envNoData peersStOld).state.peers = [Json.str "oldpeer"] ∧
    (fetchPeersRun envNoData peersStOld).state.peers ≠ [] :=
  ⟨rfl, rfl, fun h => List.cons_ne_nil _ _ h⟩

/-- C2 amended: for every proxy response whose `data` field is missing
or not an array, each list operation leaves the in-memory list either
equal to the empty list or unchanged from its prior snapshot (initially
empty) — it is always a list, never null/undefined; the
coerce-to-empty-list step only runs on the branch that updates the list
(fetchPeers: success and truthy data; fetchInterfaces: success and body
status 200). -/
theorem claim_C2_amended (env : PeersEnv) (st : PeersState) (rc : Option RouterConfig)
    (sti : InterfacesState) (hs : Nat) (rh : List (String × String)) (body : ResponseData)
    (ho : env.outcome = FetchOutcome.ok hs rh body)
    (hna : dataNotArray body.data = true) :
    ((fetchPeersRun env st).state.peers = [] ∨
      (fetchPeersRun env st).state.peers = st.peers) ∧
    ((fetchInterfacesRun rc env.outcome sti).state.interfaces = [] ∨
      (fetchInterfacesRun rc env.outcome sti).state.interfaces = sti.interfaces) := by
  obtain ⟨sc, oc, d⟩ := env
  have ho' : oc = FetchOutcome.ok hs rh body := ho
  subst ho'
  constructor
  · cases sc with
    | none => exact Or.inr rfl
    | some cfg =>
        simp only [fetchPeersRun]
        split
        · exact Or.inr rfl
        · split
          · exact Or.inl (arrayOrEmpty_of_notArray body.data hna)
          · exact Or.inr rfl
  · cases rc with
    | none => exact Or.inr rfl
    | some cfg =>
        simp only [fetchInterfacesRun]
        split
        · exact Or.inl (arrayOrEmpty_of_notArray body.data hna)
        · exact Or.inr rfl

/-- C2 witness: the amended statement evaluated at the concrete
missing-`data` response. -/
theorem claim_C2_witness :
    ((fetchPeersRun envNoData peersStOld).state.peers = [] ∨
      (fetchPeersRun envNoData peersStOld).state.peers = peersStOld.peers) ∧
    ((fetchInterfacesRun (some mikrotikConfig) envNoData.outcome interfacesStOld).state.interfaces
        = [] ∨
      (fetchInterfacesRun (some mikrotikConfig) envNoData.outcome interfacesStOld).state.interfaces
        = interfacesStOld.interfaces) :=
  claim_C2_amended envNoData peersStOld (some mikrotikConfig) interfacesStOld 200 [] bodyNoData
    rfl rfl

/-- C3 counterexample: a fully successful interfaces fetch performs one
proxy call yet emits zero log records — the interfaces page never calls
addLog — so the claim that every router-proxy call emits exactly one log
record is false on the code. -/
theorem claim_C3_counterexample :
    (fetchInterfacesRun (some mikrotikConfig) (FetchOutcome.ok 200 [] okBody)
        interfacesSt0).networkCalls = 1 ∧
    (fetchInterfacesRun (some mikrotikConfig) (FetchOutcome.ok 200 [] okBody)
        interfacesSt0).logs = [] :=
  ⟨rfl, rfl⟩

/-- C3 amended: the peers-hook proxy calls (fetchPeers, createPeer) emit
exactly one log record on every exit path — with the method, the device
path, the HTTP status plus response headers and body when a response
arrived, the request headers, the elapsed time, and the error text when
the call threw — while the interfaces-page proxy calls (fetchInterfaces,
toggle, delete) emit no log record on any path. -/
theorem claim_C3_amended :
    (∀ (env : PeersEnv) (st : PeersState) (cfg : RouterConfig),
        env.savedConfig = some cfg → cfg.routerType = "mikrotik" →
        (fetchPeersRun env st).logs = [expectedLog "GET" peersPath env.outcome env.duration] ∧
        (createPeerRun env st).logs = [expectedLog "PUT" peersPath env.outcome env.duration]) ∧
    (∀ (rc : Option RouterConfig) (o : FetchOutcome) (sti : InterfacesState),
        (fetchInterfacesRun rc o sti).logs = []) ∧
    (∀ (conf : Bool) (i n cd : String) (rc : Option RouterConfig) (o : FetchOutcome)
        (sti : InterfacesState),
        (handleToggleInterfaceRun conf i n cd rc o sti).logs = []) ∧
    (∀ (conf : Bool) (i n : String) (rc : Option RouterConfig) (o : FetchOutcome)
        (sti : InterfacesState),
        (handleDeleteInterfaceRun conf i n rc o sti).logs = []) := by
  refine ⟨?_, ?_, ?_, ?_⟩
  · intro env st cfg h1 h2
    obtain ⟨sc, oc, d⟩ := env
    have h1' : sc = some cfg := h1
    subst h1'
    have hne : ¬ (cfg.routerType ≠ "mikrotik") := by simp [h2]
    cases oc with
    | ok hs rh b =>
        constructor
        · simp only [fetchPeersRun, if_neg hne, expectedLog]
          split <;> rfl
        · simp only [createPeerRun, if_neg hne, expectedLog]
          split <;> rfl
    | thrown m =>
        exact ⟨by simp only [fetchPeersRun, if_neg hne, expectedLog],
               by simp only [createPeerRun, if_neg hne, expectedLog]⟩
  · intro rc o sti
    cases rc with
    | none => rfl
    | some cfg =>
        cases o with
        | ok hs rh b => simp only [fetchInterfacesRun]; split <;> rfl
        | thrown m => rfl
  · intro conf i n cd rc o sti
    cases conf with
    | false => rfl
    | true =>
        cases rc with
        | none => rfl
        | some cfg =>
            cases o with
            | ok hs rh b =>
                simp only [handleToggleInterfaceRun]
                split
                · rfl
                · split <;> rfl
            | thrown m => rfl
  · intro conf i n rc o sti
    cases conf with
    | false => rfl
    | true =>
        cases rc with
        | none => rfl
        | some cfg =>
            cases o with
            | ok hs rh b =>
                simp only [handleDeleteInterfaceRun]
                split
                · rfl
                · split <;> rfl
            | thrown m => rfl

/-- C3 witness: the amended peers-hook part evaluated at the concrete
HTTP-500 environment. -/
theorem claim_C3_witness :
    (fetchPeersRun env500 peersSt0).logs
      = [expectedLog "GET" peersPath env500.outcome env500.duration] ∧
    (createPeerRun env500 peersSt0).logs
      = [expectedLog "PUT" peersPath env500.outcome env500.duration] :=
  claim_C3_amended.1 env500 peersSt0 mikrotikConfig rfl rfl

/-- C4: every state-changing action whose proxy response body reports
success performs exactly one awaited re-fetch of its list, and that
re-fetch event precedes the promise-resolution event in the action's
trace (the trace is literally call, re-fetch, resolve); an action whose
response does not report success — including a thrown transport error —
performs no re-fetch. -/
theorem claim_C4_refetch_after_success :
    (∀ (env : PeersEnv) (st : PeersState) (cfg : RouterConfig),
        env.savedConfig = some cfg → cfg.routerType = "mikrotik" →
        (respSuccess env.outcome = true →
          (createPeerRun env st).events
              = [Event.proxyCall "PUT" peersPath, Event.refetch, Event.resolve] ∧
            (createPeerRun env st).events.count Event.refetch = 1) ∧
        (respSuccess env.outcome = false →
          (createPeerRun env st).events.count Event.refetch = 0)) ∧
    (∀ (i n cd : String) (rcfg : RouterConfig) (o : FetchOutcome) (sti : InterfacesState),
        (respSuccess o = true →
          (handleToggleInterfaceRun true i n cd (some rcfg) o sti).events
              = [Event.proxyCall "PATCH" (interfacesPath ++ "/" ++ i),
                 Event.refetch, Event.resolve] ∧
            (handleToggleInterfaceRun true i n cd (some rcfg) o sti).events.count
                Event.refetch = 1) ∧
        (respSuccess o = false →
          (handleToggleInterfaceRun true i n cd (some rcfg) o sti).events.count
              Event.refetch = 0)) ∧
    (∀ (i n : String) (rcfg : RouterConfig) (o : FetchOutcome) (sti : InterfacesState),
        (respSuccess o = true →
          (handleDeleteInterfaceRun true i n (some rcfg) o sti).events
              = [Event.proxyCall "DELETE" (interfacesPath ++ "/" ++ i),
                 Event.refetch, Event.resolve] ∧
            (handleDeleteInterfaceRun true i n (some rcfg) o sti).events.count
                Event.refetch = 1) ∧
        (respSuccess o = false →
          (handleDeleteInterfaceRun true i n (some rcfg) o sti).events.count
              Event.refetch = 0)) := by
  refine ⟨?_, ?_, ?_⟩
  · intro env st cfg h1 h2
    obtain ⟨sc, oc, d⟩ := env
    have h1' : sc = some cfg := h1
    subst h1'
    have hne : ¬ (cfg.routerType ≠ "mikrotik") := by simp [h2]
    cases oc with
    | ok hs rh b =>
        constructor
        · intro hsucc
          have hb : b.success.truthy = true := hsucc
          have he : (createPeerRun ⟨some cfg, FetchOutcome.ok hs rh b, d⟩ st).events
              = [Event.proxyCall "PUT" peersPath, Event.refetch, Event.resolve] := by
            simp only [createPeerRun, if_neg hne, if_pos hb]
          exact ⟨he, by rw [he]; rfl⟩
        · intro hfail
          have hb : b.success.truthy = false := hfail
          have he : (createPeerRun ⟨some cfg, FetchOutcome.ok hs rh b, d⟩ st).events
              = [Event.proxyCall "PUT" peersPath, Event.resolve] := by
            simp only [createPeerRun, if_neg hne, hb]
            rfl
          rw [he]; rfl
    | thrown m =>
        refine ⟨fun hsucc => by simp [respSuccess] at hsucc, fun _ => ?_⟩
        have he : (createPeerRun ⟨some cfg, FetchOutcome.thrown m, d⟩ st).events
            = [Event.proxyCall "PUT" peersPath, Event.resolve] := by
          simp only [createPeerRun, if_neg hne]
        rw [he]; rfl
  · intro i n cd rcfg o sti
    cases o with
    | ok hs rh b =>
        constructor
        · intro hsucc
          have hb : b.success.truthy = true := hsucc
          have he : (handleToggleInterfaceRun true i n cd (some rcfg)
                (FetchOutcome.ok hs rh b) sti).events
              = [Event.proxyCall "PATCH" (interfacesPath ++ "/" ++ i),
                 Event.refetch, Event.resolve] := by
            simp only [handleToggleInterfaceRun]
            rw [if_neg (by simp)]
            simp only [if_pos hb]
          exact ⟨he, by rw [he]; rfl⟩
        · intro hfail
          have hb : b.success.truthy = false := hfail
          have he : (handleToggleInterfaceRun true i n cd (some rcfg)
                (FetchOutcome.ok hs rh b) sti).events
              = [Event.proxyCall "PATCH" (interfacesPath ++ "/" ++ i), Event.resolve] := by
            simp only [handleToggleInterfaceRun]
            rw [if_neg (by simp)]
            simp only [hb]
            rfl
          rw [he]; rfl
    | thrown m =>
        refine ⟨fun hsucc => by simp [respSuccess] at hsucc, fun _ => ?_⟩
        have he : (handleToggleInterfaceRun true i n cd (some rcfg)
              (FetchOutcome.thrown m) sti).events
            = [Event.proxyCall "PATCH" (interfacesPath ++ "/" ++ i), Event.resolve] := rfl
        rw [he]; rfl
  · intro i n rcfg o sti
    cases o with
    | ok hs rh b =>
        constructor
        · intro hsucc
          have hb : b.success.truthy = true := hsucc
          have he : (handleDeleteInterfaceRun true i n (some rcfg)
                (FetchOutcome.ok hs rh b) sti).events
              = [Event.proxyCall "DELETE" (interfacesPath ++ "/" ++ i),
                 Event.refetch, Event.resolve] := by
            simp only [handleDeleteInterfaceRun]
            rw [if_neg (by simp)]
            simp only [if_pos hb]
          exact ⟨he, by rw [he]; rfl⟩
        · intro hfail
          have hb : b.success.truthy = false := hfail
          have he : (handleDeleteInterfaceRun true i n (some rcfg)
                (FetchOutcome.ok hs rh b) sti).events
              = [Event.proxyCall "DELETE" (interfacesPath ++ "/" ++ i), Event.resolve] := by
            simp only [handleDeleteInterfaceRun]
            rw [if_neg (by simp)]
            simp only [hb]
            rfl
          rw [he]; rfl
    | thrown m =>
        refine ⟨fun hsucc => by simp [respSuccess] at hsucc, fun _ => ?_⟩
        have he : (handleDeleteInterfaceRun true i n (some rcfg)
              (FetchOutcome.thrown m) sti).events
            = [Event.proxyCall "DELETE" (interfacesPath ++ "/" ++ i), Event.resolve] := rfl
        rw [he]; rfl

/-- C4 witness: a successful createPeer run's trace is exactly one proxy
call, one awaited re-fetch, then resolution. -/
theorem claim_C4_witness :
    (createPeerRun envOk peersSt0).events
      = [Event.proxyCall "PUT" peersPath, Event.refetch, Event.resolve] :=
  ((claim_C4_refetch_after_success.1 envOk peersSt0 mikrotikConfig rfl rfl).1 rfl).1

/-- C5: with no stored connection profile, fetchPeers and createPeer
make zero network calls, surface the not-configured toast, leave the
hook state (including the peers list) untouched, and createPeer resolves
false. -/
theorem claim_C5_not_configured (env : PeersEnv) (st : PeersState)
    (h : env.savedConfig = none) :
    (fetchPeersRun env st).networkCalls = 0 ∧
    (fetchPeersRun env st).state = st ∧
    (fetchPeersRun env st).toasts = [notConfiguredToast] ∧
    (createPeerRun env st).networkCalls = 0 ∧
    (createPeerRun env st).state = st ∧
    (createPeerRun env st).returned = some false ∧
    (createPeerRun env st).toasts = [notConfiguredToast] := by
  obtain ⟨sc, oc, d⟩ := env
  have h' : sc = none := h
  subst h'
  exact ⟨rfl, rfl, rfl, rfl, rfl, rfl, rfl⟩

/-- C5 witness: the not-configured behaviour at a concrete environment. -/
theorem claim_C5_witness :
    (fetchPeersRun envNone peersSt0).networkCalls = 0 ∧
    (fetchPeersRun envNone peersSt0).state = peersSt0 ∧
    (fetchPeersRun envNone peersSt0).toasts = [notConfiguredToast] ∧
    (createPeerRun envNone peersSt0).networkCalls = 0 ∧
    (createPeerRun envNone peersSt0).state = peersSt0 ∧
    (createPeerRun envNone peersSt0).returned = some false ∧
    (createPeerRun envNone peersSt0).toasts = [notConfiguredToast] :=
  claim_C5_not_configured envNone peersSt0 rfl

lemma fetchPeers_flag_cases (env : PeersEnv) (st : PeersState) :
    (fetchPeersRun env st).state.isLoading = false ∨
      (fetchPeersRun env st).networkCalls = 0 := by
  obtain ⟨sc, oc, d⟩ := env
  cases sc with
  | none => exact Or.inr rfl
  | some cfg =>
      cases oc with
      | ok hs rh b =>
          simp only [fetchPeersRun]
          split
          · exact Or.inr rfl
          · split
            · exact Or.inl rfl
            · exact Or.inl rfl
      | thrown m =>
          simp only [fetchPeersRun]
          split
          · exact Or.inr rfl
          · exact Or.inl rfl

lemma createPeer_flag_cases (env : PeersEnv) (st : PeersState) :
    (createPeerRun env st).state.isCreating = false ∨
      (createPeerRun env st).networkCalls = 0 := by
  obtain ⟨sc, oc, d⟩ := env
  cases sc with
  | none => exact Or.inr rfl
  | some cfg =>
      cases oc with
      | ok hs rh b =>
          simp only [createPeerRun]
          split
          · exact Or.inr rfl
          · split
            · exact Or.inl rfl
            · exact Or.inl rfl
      | thrown m =>
          simp only [createPeerRun]
          split
          · exact Or.inr rfl
          · exact Or.inl rfl

/-- C6: no exit path of a proxy-calling execution leaves its busy flag
stuck: whenever fetchPeers or createPeer actually issues its network
call — including calls that end in a thrown transport error or timeout —
the corresponding flag is false afterwards; fetchInterfaces ends with
isLoading false on every path, and a confirmed toggle or delete ends
with its id flag cleared on every path. -/
theorem claim_C6_busy_flags_reset :
    (∀ (env : PeersEnv) (st : PeersState), 0 < (fetchPeersRun env st).networkCalls →
        (fetchPeersRun env st).state.isLoading = false) ∧
    (∀ (env : PeersEnv) (st : PeersState), 0 < (createPeerRun env st).networkCalls →
        (createPeerRun env st).state.isCreating = false) ∧
    (∀ (rc : Option RouterConfig) (o : FetchOutcome) (sti : InterfacesState),
        (fetchInterfacesRun rc o sti).state.isLoading = false) ∧
    (∀ (i n cd : String) (rc : Option RouterConfig) (o : FetchOutcome)
        (sti : InterfacesState),
        (handleToggleInterfaceRun true i n cd rc o sti).state.togglingId = none) ∧
    (∀ (i n : String) (rc : Option RouterConfig) (o : FetchOutcome)
        (sti : InterfacesState),
        (handleDeleteInterfaceRun true i n rc o sti).state.deletingId = none) := by
  refine ⟨?_, ?_, ?_, ?_, ?_⟩
  · intro env st h
    rcases fetchPeers_flag_cases env st with hf | hc
    · exact hf
    · omega
  · intro env st h
    rcases createPeer_flag_cases env st with hf | hc
    · exact hf
    · omega
  · intro rc o sti
    cases rc with
    | none => rfl
    | some cfg =>
        cases o with
        | ok hs rh b => simp only [fetchInterfacesRun]; split <;> rfl
        | thrown m => rfl
  · intro i n cd rc o sti
    cases rc with
    | none => rfl
    | some cfg =>
        cases o with
        | ok hs rh b =>
            simp only [handleToggleInterfaceRun]
            rw [if_neg (by simp)]
            split <;> rfl
        | thrown m => rfl
  · intro i n rc o sti
    cases rc with
    | none => rfl
    | some cfg =>
        cases o with
        | ok hs rh b =>
            simp only [handleDeleteInterfaceRun]
            rw [if_neg (by simp)]
            split <;> rfl
        | thrown m => rfl

/-- C6 witness: after the HTTP-500 fetch (one network call) the loading
flag is back to false. -/
theorem claim_C6_witness :
    (fetchPeersRun env500 peersStOld).state.isLoading = false :=
  claim_C6_busy_flags_reset.1 env500 peersStOld (by decide)

/-- C7: for the peer with public-key PKEY, allowed-address 10.0.0.5/32
and endpoint-address vpn.example.com, the rendered config contains, in
this order, the section header [Interface], the line
Address = 10.0.0.5/32, the section header [Peer], PublicKey = PKEY,
Endpoint = vpn.example.com:51820 (the default port), AllowedIPs =
0.0.0.0/0 and PersistentKeepalive = 25. -/
theorem claim_C7_config_render :
    containsInOrder (generateWireGuardConfig pkeyPeer)
      ["[Interface]", "Address = 10.0.0.5/32", "[Peer]", "PublicKey = PKEY",
       "Endpoint = vpn.example.com:51820", "AllowedIPs = 0.0.0.0/0",
       "PersistentKeepalive = 25"] = true := by
  decide

/-- C10: a confirmed toggle with any current disabled-flag string sends
a PATCH body whose disabled field is the JSON boolean
(currentDisabled === 'false'): true exactly for the string false, false
for every other string, even though the interface model carries the flag
as a string. -/
theorem claim_C10_toggle_patch_body (i n cd : String) (rcfg : RouterConfig)
    (o : FetchOutcome) (sti : InterfacesState) :
    (handleToggleInterfaceRun true i n cd (some rcfg) o sti).sentBody
      = some (Json.obj [("disabled", Json.bool (cd == "false"))]) := by
  cases o with
  | ok hs rh b =>
      simp only [handleToggleInterfaceRun]
      rw [if_neg (by simp)]
      split <;> rfl
  | thrown m => rfl

/-- A character of the claimed 64-character alphabet A-Z a-z 0-9 + / . -/
def inAlphabet (c : Char) : Prop :=
  ('A' ≤ c ∧ c ≤ 'Z') ∨ ('a' ≤ c ∧ c ≤ 'z') ∨ ('0' ≤ c ∧ c ≤ '9') ∨ c = '+' ∨ c = '/'

instance (c : Char) : Decidable (inAlphabet c) := by
  unfold inAlphabet
  infer_instance

lemma chars_alphabet : ∀ c ∈ chars.data, inAlphabet c := by decide

lemma chars_data_length : chars.data.length = 64 := by decide

lemma charAtData_length_of_lt {i : Nat} (h : i < 64) :
    (charAtData chars.data i).length = 1 := by
  unfold charAtData
  match hget : chars.data.get? i with
  | some c => simp
  | none =>
      have hle := List.get?_eq_none.mp hget
      rw [chars_data_length] at hle
      omega

lemma charAtData_mem (i : Nat) : ∀ c ∈ charAtData chars.data i, c ∈ chars.data := by
  intro c hc
  unfold charAtData at hc
  match hget : chars.data.get? i with
  | some d =>
      rw [hget] at hc
      simp at hc
      subst hc
      exact List.get?_mem hget
  | none =>
      rw [hget] at hc
      simp at hc

lemma keyFold_length (rand : Nat → Nat) :
    ∀ (l : List Nat) (acc : List Char), (∀ i ∈ l, rand i < 64) →
      (l.foldl (fun a i => a ++ charAtData chars.data (rand i)) acc).length
        = acc.length + l.length := by
  intro l
  induction l with
  | nil => intro acc _; simp
  | cons a t ih =>
      intro acc h
      simp only [List.foldl_cons]
      rw [ih _ (fun i hi => h i (List.mem_cons_of_mem a hi))]
      rw [List.length_append, charAtData_length_of_lt (h a (List.mem_cons_self a t))]
      simp [List.length_cons]
      omega

lemma keyFold_mem (rand : Nat → Nat) :
    ∀ (l : List Nat) (acc : List Char) (c : Char),
      c ∈ l.foldl (fun a i => a ++ charAtData chars.data (rand i)) acc →
      c ∈ acc ∨ c ∈ chars.data := by
  intro l
  induction l with
  | nil =>
      intro acc c hc
      simp only [List.foldl_nil] at hc
      exact Or.inl hc
  | cons a t ih =>
      intro acc c hc
      simp only [List.foldl_cons] at hc
      rcases ih _ c hc with h1 | h1
      · rcases List.mem_append.mp h1 with h2 | h2
        · exact Or.inl h2
        · exact Or.inr (charAtData_mem (rand a) c h2)
      · exact Or.inr h1

/-- C8: whatever the sequence of random draws (each draw of
Math.floor(Math.random() * 64) lies below 64), generatePublicKey returns
a 44-character string whose characters all lie in the 64-character
alphabet A-Z a-z 0-9 + / . -/
theorem claim_C8_public_key (rand : Nat → Nat) (h : ∀ i, rand i < 64) :
    (generatePublicKey rand).length = 44 ∧
    ∀ c ∈ (generatePublicKey rand).data, inAlphabet c := by
  constructor
  · show (generatePublicKeyData rand).length = 44
    unfold generatePublicKeyData
    rw [keyFold_length rand (List.range 44) [] (fun i _ => h i)]
    simp
  · intro c hc
    have hc' : c ∈ generatePublicKeyData rand := hc
    unfold generatePublicKeyData at hc'
    rcases keyFold_mem rand (List.range 44) [] c hc' with h1 | h1
    · simp at h1
    · exact chars_alphabet c h1

/-- C8 witness: the generator evaluated on the constant draw 0. -/
theorem claim_C8_witness :
    (generatePublicKey (fun _ => 0)).length = 44 ∧
    ∀ c ∈ (generatePublicKey (fun _ => 0)).data, inAlphabet c :=
  claim_C8_public_key (fun _ => 0) (fun _ => Nat.zero_lt_succ 63)

lemma tenDotPrepend (t : String) : "10.0.0" ++ ("." ++ t) = "10.0.0." ++ t := by
  cases t
  rfl

/-- C9: whatever the random draw (Math.floor(Math.random() * 254) lies
below 254), generateAllowedAddress returns 10.0.0.n/32 for some n with
1 <= n <= 254. -/
theorem claim_C9_allowed_address (rand : Nat) (h : rand < 254) :
    ∃ n : Nat, 1 ≤ n ∧ n ≤ 254 ∧
      generateAllowedAddress rand = "10.0.0." ++ toString n ++ "/32" := by
  refine ⟨rand + 1, by omega, by omega, ?_⟩
  show "10.0.0" ++ ("." ++ (toString (rand + 1) ++ "/32"))
      = "10.0.0." ++ (toString (rand + 1) ++ "/32")
  exact tenDotPrepend (toString (rand + 1) ++ "/32")

/-- C9 witness: the generator evaluated on the draw 7. -/
theorem claim_C9_witness :
    ∃ n : Nat, 1 ≤ n ∧ n ≤ 254 ∧
      generateAllowedAddress 7 = "10.0.0." ++ toString n ++ "/32" :=
  claim_C9_allowed_address 7 (by decide)

end Wiredash
